import Mathlib

/-!
Shallow embedding of the stock-rag retrieval-augmented query pipeline.

Embedded source files:
* `src/rag_pipeline/utils/chunking.py` (`TextChunker`)
* `src/rag_pipeline/services/query_processor.py` (`QueryProcessor`)
* `src/rag_pipeline/services/llm_service.py` (`LLMService`)
* `src/rag_pipeline/services/document_processor.py` (`DocumentProcessor`)

Conventions: Python strings become `String`; Python floats carrying
similarity scores become `ℚ`; dictionaries become structures; exceptions
of external collaborators become `Option`-valued call outcomes passed in
as parameters; database state becomes an explicit list of rows.
Character classes (`\s`, `str.lower`) are modelled on their ASCII part.
-/

namespace StockRag

/-- Python `\s` (ASCII part), used by the sentence split pattern of `_split_into_sentences`
and by `str.strip()`. -/
def isPySpace (c : Char) : Bool :=
  c == ' ' || c == '\t' || c == '\n' || c == '\r' || c == '\x0b' || c == '\x0c'

/-- `str.strip()` on a character list: drop whitespace at both ends. -/
def stripChars (l : List Char) : List Char :=
  ((l.dropWhile isPySpace).reverse.dropWhile isPySpace).reverse

/-- Python `str.strip()`. -/
def pyStrip (s : String) : String :=
  String.mk (stripChars s.toList)

/-- Python `str.lower()` (ASCII part). -/
def pyLower (s : String) : String :=
  String.mk (s.toList.map Char.toLower)

/-- The sentence-final punctuation of the split pattern `(?<=[.!?])`. -/
def isSentenceEnd (c : Char) : Bool :=
  c == '.' || c == '!' || c == '?'

/-- Scanner state for the regex split of `_split_into_sentences`: finished pieces
(in reverse), the current piece (in reverse), and whether the scan is
inside the whitespace run that follows a sentence boundary. -/
structure SplitState where
  pieces : List (List Char)
  acc : List Char
  skipping : Bool
deriving DecidableEq

/-- Whether the current (reversed) piece ends in `.`/`!`/`?`. -/
def endsInBoundary : List Char → Bool
  | [] => false
  | c :: _ => isSentenceEnd c

/-- One step of the split scan: a whitespace character directly after a
sentence-final `.`/`!`/`?` closes the piece and starts consuming the
whitespace run (`\s+` is greedy); any other character extends the piece. -/
def splitStep (st : SplitState) (c : Char) : SplitState :=
  if st.skipping then
    if isPySpace c then st
    else { pieces := st.pieces, acc := [c], skipping := false }
  else if isPySpace c && endsInBoundary st.acc then
    { pieces := st.acc.reverse :: st.pieces, acc := [], skipping := true }
  else
    { pieces := st.pieces, acc := c :: st.acc, skipping := false }

/-- The regex split of `_split_into_sentences` (split on whitespace runs
preceded by sentence-final punctuation) as a character scan (a trailing
boundary yields a trailing empty piece, as in Python). -/
def splitPieces (text : String) : List (List Char) :=
  let st := text.toList.foldl splitStep ⟨[], [], false⟩
  (st.acc.reverse :: st.pieces).reverse

/-- `TextChunker._split_into_sentences`: regex split on sentence
boundaries, then `[s.strip() for s in sentences if s.strip()]`. -/
def splitIntoSentences (text : String) : List String :=
  ((splitPieces text).map fun l => String.mk (stripChars l)).filter
    fun s => s != ""

/-- Python string slicing `s[:n]`: the first `n` characters. -/
def pyTake (s : String) (n : Nat) : String :=
  String.mk (s.toList.take n)

/-- Python substring containment (`kw in text_lower`). -/
def containsSub (haystack needle : String) : Bool :=
  (List.range (haystack.length + 1)).any fun i =>
    needle.toList.isPrefixOf (haystack.toList.drop i)

/-- The closed set of section labels advertised by the spec (§4.1). -/
def sectionLabels : List String :=
  ["MD&A", "Financial Statements", "Risk Factors", "Business Overview", "Other"]

/-- `TextChunker._detect_section`: case-insensitive keyword containment
checks in a fixed priority order; first match wins, no match is `Other`. -/
def detectSection (text : String) : String :=
  let text_lower := pyLower text
  if ["management discussion", "md&a", "operating results"].any
      (containsSub text_lower) then "MD&A"
  else if ["consolidated statements", "balance sheet", "income statement",
      "cash flow"].any (containsSub text_lower) then "Financial Statements"
  else if ["risk factors", "risks and uncertainties"].any
      (containsSub text_lower) then "Risk Factors"
  else if ["business overview", "products and services", "market"].any
      (containsSub text_lower) then "Business Overview"
  else "Other"

/-- A chunk dictionary produced by `TextChunker.chunk_text`
(a dictionary with keys `text`, `token_count` and `section`).
The dictionary key `section` is spelled `section_label` here. -/
structure PyChunk where
  text : String
  token_count : Nat
  section_label : String
deriving DecidableEq, Repr

/-- `' '.join(current_chunk)`. -/
def joinSp (sentences : List String) : String :=
  String.intercalate " " sentences

/-- The token count of a sentence list: the source always accumulates
`len(self.encoding.encode(s))` sentence by sentence (`tok` stands for the
tiktoken `cl100k_base` length of a single sentence). -/
def sumTokens (tok : String → Nat) (sentences : List String) : Nat :=
  (sentences.map tok).sum

/-- `TextChunker.__init__` state: `chunk_size` (token budget, default 600)
and `overlap` (default 100). -/
structure TextChunker where
  chunk_size : Nat := 600
  overlap : Nat := 100
deriving DecidableEq

/-- `TextChunker._get_overlap_chunk`: empty if the previous chunk has at
most 2 sentences, otherwise its last 2 sentences (`previous_chunk[-2:]`).
Note the configured `self.overlap` is not consulted by the source. -/
def TextChunker.getOverlapChunk (_self : TextChunker) (previous_chunk : List String) :
    List String :=
  if previous_chunk.length ≤ 2 then []
  else previous_chunk.drop (previous_chunk.length - 2)

/-- The sentence loop of `TextChunker.chunk_text`: `current_chunk` is the
pending buffer and `current_tokens` its running token count. A buffer is
closed when the next sentence would push it over `chunk_size`; the next
buffer is seeded with the overlap and the sentence is then appended
unconditionally. -/
def chunkLoop (self : TextChunker) (tok : String → Nat) :
    List String → List String → Nat → List PyChunk
  | [], current_chunk, current_tokens =>
    if current_chunk.isEmpty then []
    else [⟨joinSp current_chunk, current_tokens, detectSection (joinSp current_chunk)⟩]
  | sentence :: rest, current_chunk, current_tokens =>
    let sentence_tokens := tok sentence
    if self.chunk_size < current_tokens + sentence_tokens ∧ ¬ current_chunk.isEmpty then
      let overlap := self.getOverlapChunk current_chunk
      ⟨joinSp current_chunk, current_tokens, detectSection (joinSp current_chunk)⟩ ::
        chunkLoop self tok rest (overlap ++ [sentence])
          (sumTokens tok overlap + sentence_tokens)
    else
      chunkLoop self tok rest (current_chunk ++ [sentence])
        (current_tokens + sentence_tokens)

/-- `TextChunker.chunk_text`. The tokenizer may fail (`tiktoken.encode`
raises on disallowed special tokens); the surrounding `try/except` then
returns the single fallback chunk holding the whole input text, token
count 0 and section label `Unknown`. -/
def TextChunker.chunk_text (self : TextChunker) (tok : String → Option Nat)
    (text : String) : List PyChunk :=
  let sentences := splitIntoSentences text
  if sentences.all fun s => (tok s).isSome then
    chunkLoop self (fun s => (tok s).getD 0) sentences [] 0
  else
    [{ text := text, token_count := 0, section_label := "Unknown" }]

/-- Analysis companion of `chunkLoop`: the sentence buffers of the emitted
chunks, in order. -/
def chunkBuffers (self : TextChunker) (tok : String → Nat) :
    List String → List String → List (List String)
  | [], current_chunk =>
    if current_chunk.isEmpty then [] else [current_chunk]
  | sentence :: rest, current_chunk =>
    if self.chunk_size < sumTokens tok current_chunk + tok sentence
        ∧ ¬ current_chunk.isEmpty then
      current_chunk ::
        chunkBuffers self tok rest (self.getOverlapChunk current_chunk ++ [sentence])
    else
      chunkBuffers self tok rest (current_chunk ++ [sentence])

/-- The chunk built from a sentence buffer. -/
def mkChunk (tok : String → Nat) (buffer : List String) : PyChunk :=
  ⟨joinSp buffer, sumTokens tok buffer, detectSection (joinSp buffer)⟩

/-- Modelled from the spec: the seeding rule of §4.1 step 3 in the words
of the spec — "seed the next buffer with the last `overlap_count` sentences
of the closed buffer (or none if the buffer had ≤ `overlap_count`
sentences)". Used only to compare with `TextChunker.getOverlapChunk`. -/
def specSeed (overlap_count : Nat) (closed : List String) : List String :=
  if closed.length ≤ overlap_count then []
  else closed.drop (closed.length - overlap_count)

/-- A row of the vector index as seen by `QueryProcessor._retrieve_chunks`
(the SQL join of `chunks`, `documents` and `embeddings`). The column
`section` is spelled `section_label` here. -/
structure IndexRow where
  id : Nat
  chunk_text : String
  section_label : Option String
  subsection : Option String
  company : String
  year : Int
  filing_date : String
  embedding : List ℚ
deriving DecidableEq

/-- A retrieved-chunk dictionary built by `QueryProcessor._retrieve_chunks`
(`similarity_score = 1 - (embedding <=> query_vector)`). -/
structure RetrievedChunk where
  chunk_id : Nat
  chunk_text : String
  section_label : Option String
  subsection : Option String
  company : String
  year : Int
  filing_date : String
  similarity_score : ℚ
deriving DecidableEq

/-- The SQL of `_retrieve_chunks`: filter rows to the requested year, order
by ascending pgvector cosine distance `embedding <=> query_vector`
(`dist` abstracts the operator), `LIMIT top_k`. -/
def vectorSearch (dist : List ℚ → List ℚ → ℚ) (db : List IndexRow)
    (query_embedding : List ℚ) (year : Int) (top_k : Nat) : List IndexRow :=
  ((db.filter fun r => r.year = year).insertionSort
    fun a b => dist a.embedding query_embedding ≤ dist b.embedding query_embedding).take
    top_k

/-- The row-to-dictionary conversion of `_retrieve_chunks`:
`similarity_score` is `1 - distance`, all other fields are copied. -/
def toRetrieved (dist : List ℚ → List ℚ → ℚ) (query_embedding : List ℚ)
    (r : IndexRow) : RetrievedChunk :=
  { chunk_id := r.id
    chunk_text := r.chunk_text
    section_label := r.section_label
    subsection := r.subsection
    company := r.company
    year := r.year
    filing_date := r.filing_date
    similarity_score := 1 - dist r.embedding query_embedding }

/-- `QueryProcessor._retrieve_chunks`: the rows are converted in the order
delivered by the index; the retriever does not re-sort. -/
def retrieve_chunks (dist : List ℚ → List ℚ → ℚ) (db : List IndexRow)
    (query_embedding : List ℚ) (year : Int) (top_k : Nat) : List RetrievedChunk :=
  (vectorSearch dist db query_embedding year top_k).map (toRetrieved dist query_embedding)

/-- Python `max` over the similarity scores of a chunk list: the fold of binary `max` over the list. The `[]` case
is unreachable in the source (guarded by an emptiness check). -/
def pyListMax : List ℚ → ℚ
  | [] => 0
  | x :: xs => xs.foldl max x

/-- `QueryProcessor._calculate_confidence`: `0.0` for no chunks, otherwise
`min(max_similarity * min(len(chunks) / 3.0, 1.0), 1.0)` — capped at `1.0`
above but with no lower cap. -/
def calculate_confidence (chunks : List RetrievedChunk) : ℚ :=
  if chunks.isEmpty then 0
  else
    let max_similarity := pyListMax (chunks.map (·.similarity_score))
    let chunk_factor := min ((chunks.length : ℚ) / 3) 1
    min (max_similarity * chunk_factor) 1

/-- Modelled from the spec: the confidence formula of §4.2 in the words
of the spec — `confidence = clamp(max_sim * min(n / 3, 1.0), 0, 1)` with
zero retrieved units giving exactly `0.0`. Used only to compare with
`calculate_confidence`. -/
def spec_confidence (chunks : List RetrievedChunk) : ℚ :=
  if chunks.isEmpty then 0
  else
    max 0 (min (pyListMax (chunks.map (·.similarity_score))
      * min ((chunks.length : ℚ) / 3) 1) 1)

/-- A source citation built by `QueryProcessor._format_sources`.
The dictionary key `section` is spelled `section_label` here. -/
structure SourceCitation where
  chunk_id : Nat
  document : String
  section_label : String
  relevance_score : ℚ
  snippet : String
deriving DecidableEq

/-- `QueryProcessor._format_sources`: the section label defaults to
`Unknown` (Python `or` treats both `None` and the empty string as
absent) and the snippet is a 200-character
snippet with an ellipsis only when the text was longer. -/
def format_sources (chunks : List RetrievedChunk) : List SourceCitation :=
  chunks.map fun c =>
    { chunk_id := c.chunk_id
      document := c.company ++ "-" ++ toString c.year
      section_label :=
        match c.section_label with
        | none => "Unknown"
        | some s => if s = "" then "Unknown" else s
      relevance_score := c.similarity_score
      snippet :=
        if 200 < c.chunk_text.length then pyTake c.chunk_text 200 ++ "..."
        else c.chunk_text }

/-- Outcome of the `requests.post` call of `LLMService._generate_with_ollama`:
either a raised exception (network failure, timeout, JSON decode error) or
a response with a status code and the optional `response` field of its
JSON body. -/
inductive HTTPOutcome where
  | exn
  | resp (status : Nat) (response_field : Option String)
deriving DecidableEq

/-- Outcome of the OpenAI chat-completion call of
`LLMService._generate_with_openai`: a raised exception or the returned
message content. -/
inductive OpenAIOutcome where
  | exn
  | ok (content : String)
deriving DecidableEq

/-- `LLMService._generate_with_ollama`: on HTTP 200 the stripped
`response` field (defaulting to empty), otherwise the empty string;
every exception is caught and also yields the empty string. -/
def generate_with_ollama : HTTPOutcome → String
  | .exn => ""
  | .resp status response_field =>
    if status = 200 then pyStrip (response_field.getD "") else ""

/-- `LLMService._generate_with_openai`: the stripped message content;
every exception is caught and yields the empty string. -/
def generate_with_openai : OpenAIOutcome → String
  | .exn => ""
  | .ok content => pyStrip content

/-- Python `max` with the similarity score as key: the
first-encountered chunk with the maximal similarity score (a later chunk
replaces the current best only when strictly greater). -/
def pyMaxBySim (best : RetrievedChunk) : List RetrievedChunk → RetrievedChunk
  | [] => best
  | c :: rest =>
    pyMaxBySim (if best.similarity_score < c.similarity_score then c else best) rest

/-- `LLMService._generate_basic_response`: the deterministic extractive
fallback. -/
def generate_basic_response : List RetrievedChunk → String
  | [] => "I couldn\u0027t find relevant information to answer your question."
  | best0 :: rest =>
    "Based on the available information: "
      ++ pyTake (pyMaxBySim best0 rest).chunk_text 300 ++ "..."

/-- Modelled from the spec: the tier-3 selection rule of §4.3 in the
words of the spec — "the unit with the strictly highest similarity score
(ties broken by first-encountered order)", i.e. the first list element
whose score is maximal. Used only to compare with `pyMaxBySim`. -/
def specFirstMax (chunks : List RetrievedChunk) : Option RetrievedChunk :=
  chunks.find? fun c =>
    chunks.all fun d => d.similarity_score ≤ c.similarity_score

/-- `LLMService.generate_answer`: try Ollama; on an empty answer fall back
to OpenAI when configured, else to the extractive fallback. The outer
`try/except` never fires: both tier helpers catch their own exceptions. -/
def generate_answer (ollamaOut : HTTPOutcome) (openaiConfigured : Bool)
    (openaiOut : OpenAIOutcome) (chunks : List RetrievedChunk) : String :=
  let answer := generate_with_ollama ollamaOut
  if answer ≠ "" then answer
  else if openaiConfigured then generate_with_openai openaiOut
  else generate_basic_response chunks

/-- Tier-1 failure per spec §4.3: exception (network failure, timeout),
non-200 status, or an empty (after stripping) body. -/
def ollamaFails : HTTPOutcome → Bool
  | .exn => true
  | .resp status response_field =>
    status != 200 || pyStrip (response_field.getD "") == ""

/-- Tier-2 failure per spec §4.3: exception or an empty (after stripping)
body. -/
def openaiFails : OpenAIOutcome → Bool
  | .exn => true
  | .ok content => pyStrip content == ""

/-- The result dictionary of `QueryProcessor.process_query`. -/
structure QueryResponse where
  answer : String
  sources : List SourceCitation
  confidence : ℚ
deriving DecidableEq

/-- `QueryProcessor.process_query`: embed the query (a raised
`EmbeddingError` propagates, modelled by `embedOut = none`), retrieve, and
either return the fixed zero-result response or generate an answer. -/
def process_query (dist : List ℚ → List ℚ → ℚ) (embedOut : Option (List ℚ))
    (db : List IndexRow) (year : Int) (top_k : Nat)
    (ollamaOut : HTTPOutcome) (openaiConfigured : Bool) (openaiOut : OpenAIOutcome) :
    Except String QueryResponse :=
  match embedOut with
  | none => .error "Query processing failed"
  | some query_embedding =>
    let relevant_chunks := retrieve_chunks dist db query_embedding year top_k
    if relevant_chunks.isEmpty then
      .ok { answer := "No relevant information found for your query."
            sources := []
            confidence := 0 }
    else
      .ok { answer := generate_answer ollamaOut openaiConfigured openaiOut relevant_chunks
            sources := format_sources relevant_chunks
            confidence := calculate_confidence relevant_chunks }

/-- A row written by the ingest flow of `DocumentProcessor` (tables
`documents`, `chunks`, `embeddings`); row ids are list positions. -/
inductive DBRow where
  | documentRow (company : String) (year : Int) (url : String)
  | chunkRow (document_id : Nat) (chunk_index : Nat) (chunk_text : String)
      (section_label : String)
  | embeddingRow (chunk_id : Nat) (embedding : List ℚ) (model_version : String)
deriving DecidableEq

/-- The loop of `DocumentProcessor._store_chunks_and_embeddings`: insert
the chunk row, embed its text, insert the embedding row. A raised
`EmbeddingError` (`embed = none`) escapes the whole loop (the exception
handler of the source re-raises), leaving every row inserted so far in
place. -/
def storeChunksLoop (embed : String → Option (List ℚ)) (document_id : Nat) :
    List PyChunk → List DBRow → Nat → List DBRow × Option Nat
  | [], store, count => (store, some count)
  | c :: rest, store, i =>
    let chunk_id := store.length
    let store1 := store ++ [DBRow.chunkRow document_id i c.text c.section_label]
    match embed c.text with
    | none => (store1, none)
    | some emb =>
      storeChunksLoop embed document_id rest
        (store1 ++ [DBRow.embeddingRow chunk_id emb "text-embedding-3-small"]) (i + 1)

/-- `DocumentProcessor._store_chunks_and_embeddings`: returns the updated
store and `some chunk_count` on success, `none` when the loop raised. -/
def store_chunks_and_embeddings (embed : String → Option (List ℚ))
    (document_id : Nat) (chunks : List PyChunk) (store : List DBRow) :
    List DBRow × Option Nat :=
  storeChunksLoop embed document_id chunks store 0

/-- Analysis companion of `storeChunksLoop`: the rows the loop appends,
computed standalone (`base` is the store length where the next chunk row
lands, so each successful chunk adds two rows). -/
def chunkWrites (embed : String → Option (List ℚ)) (document_id : Nat) :
    List PyChunk → Nat → Nat → List DBRow
  | [], _, _ => []
  | c :: rest, base, i =>
    DBRow.chunkRow document_id i c.text c.section_label ::
      match embed c.text with
      | none => []
      | some emb =>
        DBRow.embeddingRow base emb "text-embedding-3-small" ::
          chunkWrites embed document_id rest (base + 2) (i + 1)

/-- The result of `DocumentProcessor.process_document`
(a success dictionary or a failure dictionary with an error message). -/
inductive IngestOutcome where
  | ok (document_id : Nat) (chunk_count : Nat)
  | error
deriving DecidableEq

/-- `DocumentProcessor.process_document`: fetch (a raised exception is
`fetchOut = none`), parse the HTML to full text, insert the document row,
chunk, then store chunks and embeddings; any raised error is caught at
the top and reported as failure. `_update_document_status` swallows its
own exceptions and touches only the Django ORM store, so it is a no-op
here. -/
def process_document (fetchOut : Option String) (parse_full_text : String → String)
    (tok : String → Option Nat) (chunker : TextChunker)
    (embed : String → Option (List ℚ)) (url company : String) (year : Int)
    (store : List DBRow) : List DBRow × IngestOutcome :=
  match fetchOut with
  | none => (store, .error)
  | some html =>
    let full_text := parse_full_text html
    let document_id := store.length
    let store1 := store ++ [DBRow.documentRow company year url]
    let chunks := chunker.chunk_text tok full_text
    match store_chunks_and_embeddings embed document_id chunks store1 with
    | (store2, none) => (store2, .error)
    | (store2, some n) => (store2, .ok document_id n)

/-- A sample retrieved chunk with a negative cosine similarity
(`1 - distance` with distance `2`, the pgvector maximum). -/
def sampleNeg : RetrievedChunk := ⟨0, "t", none, none, "A", 2023, "d", -1⟩

/-- Sample retrieved chunk with similarity `0.9` (spec §8 scenario). -/
def sample09 : RetrievedChunk := ⟨0, "t", none, none, "A", 2023, "d", 9/10⟩

/-- Sample retrieved chunk with similarity `0.6` (spec §8 scenario). -/
def sample06 : RetrievedChunk := ⟨1, "u", none, none, "A", 2023, "d", 6/10⟩

/-- A constant distance function, used to instantiate theorems. -/
def zeroDist : List ℚ → List ℚ → ℚ := fun _ _ => 0

/-- An embedder that raises exactly on the text `"bb."`, used to
instantiate the ingest theorems. -/
def embedFailBB : String → Option (List ℚ) :=
  fun t => if t = "bb." then none else some [1]

end StockRag

namespace StockRag

/-! ### Helper lemmas about `pyListMax` -/

theorem le_foldl_max (b : ℚ) (l : List ℚ) : b ≤ l.foldl max b := by
  induction l generalizing b with
  | nil => exact le_refl b
  | cons c cs ih => exact le_trans (le_max_left b c) (ih (max b c))

theorem le_foldl_max_of_mem {a : ℚ} {l : List ℚ} (h : a ∈ l) (b : ℚ) :
    a ≤ l.foldl max b := by
  induction l generalizing b with
  | nil => exact absurd h (List.not_mem_nil a)
  | cons c cs ih =>
    rcases List.mem_cons.mp h with rfl | hm
    · exact le_trans (le_max_right b a) (le_foldl_max (max b a) cs)
    · exact ih hm (max b c)

theorem foldl_max_choice (b : ℚ) (l : List ℚ) :
    l.foldl max b = b ∨ l.foldl max b ∈ l := by
  induction l generalizing b with
  | nil => exact Or.inl rfl
  | cons c cs ih =>
    rcases ih (max b c) with h | h
    · rcases max_choice b c with hb | hc
      · exact Or.inl (by rw [List.foldl_cons, h, hb])
      · exact Or.inr (by rw [List.foldl_cons, h, hc]; exact List.mem_cons_self c cs)
    · exact Or.inr (List.mem_cons_of_mem c h)

theorem pyListMax_mem {l : List ℚ} (h : l ≠ []) : pyListMax l ∈ l := by
  cases l with
  | nil => exact absurd rfl h
  | cons x xs =>
    rcases foldl_max_choice x xs with hx | hx
    · rw [pyListMax, hx]; exact List.mem_cons_self x xs
    · exact List.mem_cons_of_mem x hx

theorem le_pyListMax {a : ℚ} {l : List ℚ} (h : a ∈ l) : a ≤ pyListMax l := by
  cases l with
  | nil => exact absurd h (List.not_mem_nil a)
  | cons x xs =>
    rcases List.mem_cons.mp h with rfl | hm
    · exact le_foldl_max a xs
    · exact le_foldl_max_of_mem hm x

theorem pyListMax_perm {l₁ l₂ : List ℚ} (h : l₁.Perm l₂) :
    pyListMax l₁ = pyListMax l₂ := by
  rcases eq_or_ne l₁ [] with rfl | h₁
  · rw [h.symm.eq_nil]
  · have h₂ : l₂ ≠ [] := by
      intro e
      subst e
      exact h₁ h.eq_nil
    exact le_antisymm
      (le_pyListMax (h.mem_iff.mp (pyListMax_mem h₁)))
      (le_pyListMax (h.mem_iff.mpr (pyListMax_mem h₂)))

/-! ### Claim C1 — confidence formula -/

theorem confidence_sampleNeg : calculate_confidence [sampleNeg] = -1/3 := by
  unfold calculate_confidence
  simp only [List.isEmpty_cons, Bool.false_eq_true, if_false, List.map_cons, List.map_nil,
    List.length_cons, List.length_nil]
  rw [show pyListMax [sampleNeg.similarity_score] = -1 from rfl]
  norm_num

theorem spec_confidence_sampleNeg : spec_confidence [sampleNeg] = 0 := by
  unfold spec_confidence
  simp only [List.isEmpty_cons, Bool.false_eq_true, if_false, List.map_cons, List.map_nil,
    List.length_cons, List.length_nil]
  rw [show pyListMax [sampleNeg.similarity_score] = -1 from rfl]
  norm_num

theorem pyListMax_scenario : pyListMax ([sample09, sample06].map (·.similarity_score)) = 9/10 := by
  show [(6:ℚ)/10].foldl max ((9:ℚ)/10) = 9/10
  simp only [List.foldl_cons, List.foldl_nil]
  rw [max_eq_left (by norm_num : (6:ℚ)/10 ≤ 9/10)]

theorem confidence_scenario : calculate_confidence [sample09, sample06] = 3/5 := by
  unfold calculate_confidence
  simp only [List.isEmpty_cons, Bool.false_eq_true, if_false]
  rw [pyListMax_scenario]
  norm_num

/-- Claim C1 counterexample: a single retrieved unit with similarity `-1`
(reachable, since pgvector cosine distance ranges over `[0, 2]` and the
data model of the spec itself allows `similarity_score ∈ [-1, 1]`) gives
confidence `-1/3`: it differs from the clamp formula of the spec and is not in
`[0, 1]`. -/
theorem C1_counterexample :
    calculate_confidence [sampleNeg] = -1/3
    ∧ spec_confidence [sampleNeg] = 0
    ∧ calculate_confidence [sampleNeg] ≠ spec_confidence [sampleNeg]
    ∧ calculate_confidence [sampleNeg] < 0 := by
  refine ⟨confidence_sampleNeg, spec_confidence_sampleNeg, ?_, ?_⟩
  · rw [confidence_sampleNeg, spec_confidence_sampleNeg]
    norm_num
  · rw [confidence_sampleNeg]
    norm_num

/-- Claim C1 amended: the retriever caps confidence at `1` above but does
not clamp below at `0`; with zero retrieved units it is exactly `0`, and
whenever the maximal similarity is nonnegative (in particular for the
practical `[0, 1]` range) the result is nonnegative and agrees with the
clamp formula of the spec. -/
theorem C1_confidence_clamped (chunks : List RetrievedChunk) :
    calculate_confidence ([] : List RetrievedChunk) = 0
    ∧ calculate_confidence chunks ≤ 1
    ∧ (chunks ≠ [] → 0 ≤ pyListMax (chunks.map (·.similarity_score)) →
        0 ≤ calculate_confidence chunks
        ∧ calculate_confidence chunks = spec_confidence chunks) := by
  refine ⟨rfl, ?_, ?_⟩
  · unfold calculate_confidence
    split
    · exact zero_le_one
    · exact min_le_right _ 1
  · intro hne hmax
    have hempty : chunks.isEmpty = false := by
      cases chunks with
      | nil => exact absurd rfl hne
      | cons c cs => rfl
    have hfac : (0 : ℚ) ≤ min ((chunks.length : ℚ) / 3) 1 :=
      le_min (div_nonneg (Nat.cast_nonneg _) (by norm_num)) zero_le_one
    have hprod : (0 : ℚ) ≤ pyListMax (chunks.map (·.similarity_score))
        * min ((chunks.length : ℚ) / 3) 1 := mul_nonneg hmax hfac
    have hcc : (0 : ℚ)
        ≤ min (pyListMax (chunks.map (·.similarity_score))
            * min ((chunks.length : ℚ) / 3) 1) 1 :=
      le_min hprod zero_le_one
    constructor
    · unfold calculate_confidence
      rw [hempty]
      exact hcc
    · unfold calculate_confidence spec_confidence
      rw [hempty]
      simp only [Bool.false_eq_true, if_false]
      exact (max_eq_right hcc).symm

/-- Claim C1 witness, the spec §8 scenario: two units with similarities
`0.9` and `0.6` give confidence `0.9 * min(2/3, 1) = 0.6`, nonnegative and
equal to the clamp formula. -/
theorem C1_confidence_clamped_witness :
    (([sample09, sample06] : List RetrievedChunk) ≠ []
      ∧ 0 ≤ pyListMax ([sample09, sample06].map (·.similarity_score))
      ∧ calculate_confidence [sample09, sample06] = 3/5)
    ∧ 0 ≤ calculate_confidence [sample09, sample06]
    ∧ calculate_confidence [sample09, sample06] = spec_confidence [sample09, sample06] :=
  ⟨⟨List.cons_ne_nil _ _, by rw [pyListMax_scenario]; norm_num, confidence_scenario⟩,
    (C1_confidence_clamped [sample09, sample06]).2.2 (List.cons_ne_nil _ _)
      (by rw [pyListMax_scenario]; norm_num)⟩

/-! ### Helper lemmas about the chunker -/

theorem sumTokens_append (tok : String → Nat) (l : List String) (s : String) :
    sumTokens tok (l ++ [s]) = sumTokens tok l + tok s := by
  simp [sumTokens]

theorem getOverlapChunk_length_le (self : TextChunker) (l : List String) :
    (self.getOverlapChunk l).length ≤ 2 := by
  unfold TextChunker.getOverlapChunk
  split
  · simp
  · simp only [List.length_drop]
    omega

/-- The faithful sentence loop agrees with its buffer-level companion:
each emitted chunk is its buffer joined with spaces, carrying the sum of
the token counts of its sentences (so the running count is indeed recomputed
from the seed after every close). -/
theorem chunkLoop_eq_buffers (self : TextChunker) (tok : String → Nat) :
    ∀ (sentences current : List String),
      chunkLoop self tok sentences current (sumTokens tok current)
        = (chunkBuffers self tok sentences current).map (mkChunk tok) := by
  intro sentences
  induction sentences with
  | nil =>
    intro current
    unfold chunkLoop chunkBuffers
    split
    · simp
    · simp [mkChunk]
  | cons s rest ih =>
    intro current
    simp only [chunkLoop, chunkBuffers]
    by_cases h : self.chunk_size < sumTokens tok current + tok s ∧ ¬ current.isEmpty
    · rw [if_pos h, if_pos h]
      rw [show sumTokens tok (self.getOverlapChunk current) + tok s
            = sumTokens tok (self.getOverlapChunk current ++ [s]) from
          (sumTokens_append tok _ s).symm]
      rw [ih (self.getOverlapChunk current ++ [s])]
      simp [mkChunk]
    · rw [if_neg h, if_neg h]
      rw [show sumTokens tok current + tok s = sumTokens tok (current ++ [s]) from
          (sumTokens_append tok current s).symm]
      exact ih (current ++ [s])

/-- `chunk_text` with a total tokenizer is the rendered buffer list. -/
theorem chunk_text_eq_buffers (self : TextChunker) (tok : String → Nat) (text : String) :
    TextChunker.chunk_text self (fun s => some (tok s)) text
      = (chunkBuffers self tok (splitIntoSentences text) []).map (mkChunk tok) := by
  unfold TextChunker.chunk_text
  rw [if_pos (by simp)]
  exact chunkLoop_eq_buffers self tok (splitIntoSentences text) []

/-- Buffer overflow invariant: every buffer the chunker emits either fits
the token budget, or is a freshly seeded buffer — an overlap seed of at
most two sentences plus the one sentence appended unchecked right after a
close (or at the very start). -/
theorem chunkBuffers_overflow (self : TextChunker) (tok : String → Nat) :
    ∀ (sentences current : List String),
      (sumTokens tok current ≤ self.chunk_size
        ∨ ∃ seed s, current = seed ++ [s] ∧ seed.length ≤ 2) →
      ∀ b ∈ chunkBuffers self tok sentences current,
        sumTokens tok b ≤ self.chunk_size
          ∨ ∃ seed s, b = seed ++ [s] ∧ seed.length ≤ 2 := by
  intro sentences
  induction sentences with
  | nil =>
    intro current hcur b hb
    unfold chunkBuffers at hb
    split at hb
    · exact absurd hb (List.not_mem_nil b)
    · rw [List.mem_singleton.mp hb]
      exact hcur
  | cons s rest ih =>
    intro current hcur b hb
    simp only [chunkBuffers] at hb
    by_cases h : self.chunk_size < sumTokens tok current + tok s ∧ ¬ current.isEmpty
    · rw [if_pos h] at hb
      rcases List.mem_cons.mp hb with rfl | hb2
      · exact hcur
      · exact ih _ (Or.inr ⟨self.getOverlapChunk current, s, rfl,
          getOverlapChunk_length_le self current⟩) b hb2
    · rw [if_neg h] at hb
      refine ih _ ?_ b hb
      rcases not_and_or.mp h with h1 | h2
      · left
        rw [sumTokens_append]
        omega
      · right
        have hcp : current = [] := by
          cases current with
          | nil => rfl
          | cons x xs => exact absurd (by simp : ¬ (List.isEmpty (x :: xs) = true)) h2
        subst hcp
        exact ⟨[], s, rfl, by simp⟩

/-- The buffer list starting from `current` is empty or starts with a
right-extension of `current` (buffers only grow on the right until they
are emitted). -/
theorem chunkBuffers_head (self : TextChunker) (tok : String → Nat) :
    ∀ (sentences current : List String),
      chunkBuffers self tok sentences current = []
        ∨ ∃ ext tail, chunkBuffers self tok sentences current = (current ++ ext) :: tail := by
  intro sentences
  induction sentences with
  | nil =>
    intro current
    unfold chunkBuffers
    split
    · exact Or.inl rfl
    · exact Or.inr ⟨[], [], by simp⟩
  | cons s rest ih =>
    intro current
    simp only [chunkBuffers]
    by_cases h : self.chunk_size < sumTokens tok current + tok s ∧ ¬ current.isEmpty
    · rw [if_pos h]
      exact Or.inr ⟨[], chunkBuffers self tok rest (self.getOverlapChunk current ++ [s]),
        by simp⟩
    · rw [if_neg h]
      rcases ih (current ++ [s]) with h0 | ⟨ext, tail, heq⟩
      · exact Or.inl h0
      · exact Or.inr ⟨[s] ++ ext, tail, by rw [heq, List.append_assoc]⟩

/-- Consecutive emitted buffers are linked by the overlap seed: the seed
computed from buffer `i` is a prefix of buffer `i + 1`. -/
theorem chunkBuffers_chain (self : TextChunker) (tok : String → Nat) :
    ∀ (sentences current : List String),
      List.Chain' (fun a b => self.getOverlapChunk a <+: b)
        (chunkBuffers self tok sentences current) := by
  intro sentences
  induction sentences with
  | nil =>
    intro current
    unfold chunkBuffers
    split
    · exact List.chain'_nil
    · exact List.chain'_singleton _
  | cons s rest ih =>
    intro current
    simp only [chunkBuffers]
    by_cases h : self.chunk_size < sumTokens tok current + tok s ∧ ¬ current.isEmpty
    · rw [if_pos h]
      refine List.chain'_cons'.mpr ⟨?_, ih _⟩
      intro y hy
      rcases chunkBuffers_head self tok rest (self.getOverlapChunk current ++ [s]) with
        h0 | ⟨ext, tail, heq⟩
      · rw [h0] at hy
        exact absurd hy (by simp)
      · rw [heq] at hy
        simp only [List.head?_cons, Option.mem_some_iff] at hy
        rw [← hy, List.append_assoc]
        exact List.prefix_append _ _
    · rw [if_neg h]
      exact ih _

/-! ### Claim C2 — chunk token budget -/

/-- Claim C2 counterexample: with budget 10 and per-character token
counts, the input `"ab. cd. ef. ghijklmn. x."` makes the chunker emit the
chunk `"cd. ef. ghijklmn."` with `token_count = 15 > 10` although it
consists of three sentences, not exactly one: the overlap seed `"cd."`,
`"ef."` plus the unchecked sentence `"ghijklmn."` jointly overflow. -/
theorem C2_counterexample :
    TextChunker.chunk_text ⟨10, 100⟩ (fun s => some s.length) "ab. cd. ef. ghijklmn. x."
      = [⟨"ab. cd. ef.", 9, "Other"⟩, ⟨"cd. ef. ghijklmn.", 15, "Other"⟩,
          ⟨"ef. ghijklmn. x.", 14, "Other"⟩]
    ∧ 10 < 15
    ∧ splitIntoSentences "cd. ef. ghijklmn." = ["cd.", "ef.", "ghijklmn."]
    ∧ (splitIntoSentences "cd. ef. ghijklmn.").length ≠ 1 := by
  refine ⟨by decide, by decide, by decide, by decide⟩

/-- Claim C2 amended: every emitted chunk respects the token budget,
except a chunk formed from a freshly seeded buffer — an overlap seed of at
most two sentences plus one unchecked sentence (hence at most three
sentences, and exactly one when the seed is empty) — whose combined token
count exceeds the budget. -/
theorem C2_token_budget (tok : String → Nat) (size ov : Nat) (text : String) :
    ∀ c ∈ TextChunker.chunk_text ⟨size, ov⟩ (fun s => some (tok s)) text,
      c.token_count ≤ size
        ∨ ∃ seed s, seed.length ≤ 2 ∧ c.text = joinSp (seed ++ [s])
            ∧ c.token_count = sumTokens tok seed + tok s ∧ size < c.token_count := by
  intro c hc
  rw [chunk_text_eq_buffers ⟨size, ov⟩ tok text] at hc
  obtain ⟨b, hb, rfl⟩ := List.mem_map.mp hc
  by_cases hle : sumTokens tok b ≤ size
  · exact Or.inl hle
  · rcases chunkBuffers_overflow ⟨size, ov⟩ tok (splitIntoSentences text) []
        (Or.inl (by simp [sumTokens])) b hb with h | ⟨seed, s, rfl, hlen⟩
    · exact absurd h hle
    · exact Or.inr ⟨seed, s, hlen, rfl, by rw [mkChunk, sumTokens_append],
        by rw [mkChunk]; exact not_le.mp hle⟩

/-- Claim C2 witness: the over-budget three-sentence chunk of the
counterexample input falls under the amended exception. -/
theorem C2_token_budget_witness :
    (⟨"cd. ef. ghijklmn.", 15, "Other"⟩ : PyChunk)
        ∈ TextChunker.chunk_text ⟨10, 100⟩ (fun s => some s.length) "ab. cd. ef. ghijklmn. x."
    ∧ ((⟨"cd. ef. ghijklmn.", 15, "Other"⟩ : PyChunk).token_count ≤ 10
        ∨ ∃ seed s, seed.length ≤ 2
            ∧ (⟨"cd. ef. ghijklmn.", 15, "Other"⟩ : PyChunk).text = joinSp (seed ++ [s])
            ∧ (⟨"cd. ef. ghijklmn.", 15, "Other"⟩ : PyChunk).token_count
                = sumTokens String.length seed + String.length s
            ∧ 10 < (⟨"cd. ef. ghijklmn.", 15, "Other"⟩ : PyChunk).token_count) :=
  ⟨by decide, C2_token_budget String.length 10 100 "ab. cd. ef. ghijklmn. x."
    ⟨"cd. ef. ghijklmn.", 15, "Other"⟩ (by decide)⟩

/-! ### Claim C3 — overlap seeding -/

/-- Claim C3 counterexample: with the overlap configured to 1, the
chunker still seeds with the trailing two sentences: the second chunk
`"cd. ef. ghijklmn."` starts with the trailing two sentences of the first
chunk `"ab. cd. ef."`, and the seeding function disagrees with the
`overlap_count` rule of the spec on the closed buffer `["ab.", "cd.", "ef."]`. -/
theorem C3_counterexample :
    TextChunker.chunk_text ⟨10, 1⟩ (fun s => some s.length) "ab. cd. ef. ghijklmn. x."
      = [⟨"ab. cd. ef.", 9, "Other"⟩, ⟨"cd. ef. ghijklmn.", 15, "Other"⟩,
          ⟨"ef. ghijklmn. x.", 14, "Other"⟩]
    ∧ TextChunker.getOverlapChunk ⟨10, 1⟩ ["ab.", "cd.", "ef."] = ["cd.", "ef."]
    ∧ specSeed 1 ["ab.", "cd.", "ef."] = ["ef."]
    ∧ TextChunker.getOverlapChunk ⟨10, 1⟩ ["ab.", "cd.", "ef."]
        ≠ specSeed 1 ["ab.", "cd.", "ef."] := by
  refine ⟨by decide, by decide, by decide, by decide⟩

/-- Claim C3 amended: whatever overlap is configured, closing a chunk
seeds the next buffer with exactly the trailing 2 sentences of the closed
chunk (none if it had at most 2), recomputing the buffer token count from
that seed: the emitted chunks are exactly the buffer list rendered with
space-joined text and seed-recomputed token counts, and the overlap seed
of each buffer is the start of the next buffer. -/
theorem C3_overlap_seeding (tok : String → Nat) (size ov : Nat) (text : String) :
    TextChunker.chunk_text ⟨size, ov⟩ (fun s => some (tok s)) text
        = (chunkBuffers ⟨size, ov⟩ tok (splitIntoSentences text) []).map (mkChunk tok)
    ∧ List.Chain' (fun a b => TextChunker.getOverlapChunk ⟨size, ov⟩ a <+: b)
        (chunkBuffers ⟨size, ov⟩ tok (splitIntoSentences text) []) := by
  constructor
  · exact chunk_text_eq_buffers ⟨size, ov⟩ tok text
  · exact chunkBuffers_chain ⟨size, ov⟩ tok (splitIntoSentences text) []

/-! ### Claim C9 — chunking fallback -/

/-- Claim C9: the chunker is total; when the tokenizer fails on any
sentence (the one failure point of the loop: `tiktoken.encode` raises on
disallowed special tokens) it returns exactly one chunk carrying the
entire unmodified input, token count `0` and the label `Unknown`, which
lies outside the advertised closed label set while every label computed
by `_detect_section` lies inside it. -/
theorem C9_chunk_fallback (tok : String → Option Nat) (size ov : Nat) (text : String)
    (h : ((splitIntoSentences text).all fun s => (tok s).isSome) = false) :
    TextChunker.chunk_text ⟨size, ov⟩ tok text
        = [{ text := text, token_count := 0, section_label := "Unknown" }]
    ∧ (∀ t : String, detectSection t ∈ sectionLabels)
    ∧ "Unknown" ∉ sectionLabels := by
  refine ⟨?_, ?_, by decide⟩
  · simp [TextChunker.chunk_text, h]
  · intro t
    simp only [detectSection]
    split
    · simp [sectionLabels]
    · split
      · simp [sectionLabels]
      · split
        · simp [sectionLabels]
        · split <;> simp [sectionLabels]

/-- Claim C9 witness: a tokenizer failing on the single sentence of the
input `"A."` triggers the fallback chunk. -/
theorem C9_chunk_fallback_witness :
    ((splitIntoSentences "A.").all fun s => ((fun _ => (none : Option Nat)) s).isSome) = false
    ∧ TextChunker.chunk_text ⟨600, 100⟩ (fun _ => none) "A."
        = [{ text := "A.", token_count := 0, section_label := "Unknown" }]
    ∧ (∀ t : String, detectSection t ∈ sectionLabels)
    ∧ "Unknown" ∉ sectionLabels :=
  ⟨by decide, C9_chunk_fallback (fun _ => none) 600 100 "A." (by decide)⟩

/-! ### Claim C4 — ingest failure handling -/

/-- The store loop, characterized: the final store is the initial store
with the writes of the loop appended (`chunkWrites` stops right after
the text row of the first failing chunk), and the returned count exists exactly
when every chunk embeds successfully. -/
theorem storeChunksLoop_eq (embed : String → Option (List ℚ)) (document_id : Nat) :
    ∀ (chunks : List PyChunk) (store : List DBRow) (i : Nat),
      storeChunksLoop embed document_id chunks store i
        = (store ++ chunkWrites embed document_id chunks store.length i,
            if chunks.all fun c => (embed c.text).isSome then some (i + chunks.length)
            else none) := by
  intro chunks
  induction chunks with
  | nil =>
    intro store i
    simp [storeChunksLoop, chunkWrites]
  | cons c rest ih =>
    intro store i
    simp only [storeChunksLoop, chunkWrites]
    cases hemb : embed c.text with
    | none => simp [hemb, List.all_cons]
    | some emb =>
      dsimp only
      rw [ih ((store ++ [DBRow.chunkRow document_id i c.text c.section_label])
          ++ [DBRow.embeddingRow store.length emb "text-embedding-3-small"]) (i + 1)]
      simp only [hemb, List.all_cons, Option.isSome_some, Bool.true_and, List.length_append,
        List.length_cons, List.length_nil, List.append_assoc, List.cons_append,
        List.nil_append, Prod.mk.injEq, List.length_cons]
      refine ⟨trivial, ?_⟩
      have : i + 1 + rest.length = i + (rest.length + 1) := by omega
      rw [this]

/-- Claim C4 counterexample: ingesting `"aa. bb. cc."` (three chunks)
with an embedder that fails on `"bb."` aborts the whole loop: the overall
result is `error` (not a per-chunk record), the chunk `"cc."` — although
produced by the chunker — is never written, while the rows written before
the failure (document row, chunk and embedding of `"aa."`, chunk row of
`"bb."`) remain in the store. -/
theorem C4_counterexample :
    process_document (some "aa. bb. cc.") id (fun s => some s.length) ⟨4, 100⟩
        embedFailBB "u" "Apple" 2023 []
      = ([.documentRow "Apple" 2023 "u", .chunkRow 0 0 "aa." "Other",
          .embeddingRow 1 [1] "text-embedding-3-small", .chunkRow 0 1 "bb." "Other"],
          .error)
    ∧ (⟨"cc.", 3, "Other"⟩ : PyChunk)
        ∈ TextChunker.chunk_text ⟨4, 100⟩ (fun s => some s.length) "aa. bb. cc."
    ∧ ∀ e, DBRow.embeddingRow 3 e "text-embedding-3-small"
        ∉ [DBRow.documentRow "Apple" 2023 "u", DBRow.chunkRow 0 0 "aa." "Other",
            DBRow.embeddingRow 1 [1] "text-embedding-3-small",
            DBRow.chunkRow 0 1 "bb." "Other"] := by
  refine ⟨by decide, by decide, ?_⟩
  intro e
  simp

/-- Claim C4 amended: an embedding failure is not scoped to the failing
chunk — the loop writes the text row of the failing chunk, stops (later chunks
are not ingested), and surfaces the failure (`none`); previously written
rows are never rolled back (the initial store is a prefix of the final
store). -/
theorem C4_ingest_abort (embed : String → Option (List ℚ)) (document_id : Nat)
    (chunks : List PyChunk) (store : List DBRow) :
    store_chunks_and_embeddings embed document_id chunks store
        = (store ++ chunkWrites embed document_id chunks store.length 0,
            if chunks.all fun c => (embed c.text).isSome then some chunks.length
            else none)
    ∧ store <+: (store_chunks_and_embeddings embed document_id chunks store).1
    ∧ ((chunks.all fun c => (embed c.text).isSome) = false →
        (store_chunks_and_embeddings embed document_id chunks store).2 = none) := by
  have h := storeChunksLoop_eq embed document_id chunks store 0
  rw [Nat.zero_add] at h
  refine ⟨h, ?_, ?_⟩
  · rw [store_chunks_and_embeddings, h]
    exact List.prefix_append store _
  · intro hfail
    rw [store_chunks_and_embeddings, h]
    simp [hfail]

/-- Claim C4 witness: the failing ingest of the counterexample instantiates
the amended characterization. -/
theorem C4_ingest_abort_witness :
    (([⟨"aa.", 3, "Other"⟩, ⟨"bb.", 3, "Other"⟩, ⟨"cc.", 3, "Other"⟩] : List PyChunk).all
        fun c => (embedFailBB c.text).isSome) = false
    ∧ (store_chunks_and_embeddings embedFailBB 0
        [⟨"aa.", 3, "Other"⟩, ⟨"bb.", 3, "Other"⟩, ⟨"cc.", 3, "Other"⟩] []).2 = none :=
  ⟨by decide,
    (C4_ingest_abort embedFailBB 0
      [⟨"aa.", 3, "Other"⟩, ⟨"bb.", 3, "Other"⟩, ⟨"cc.", 3, "Other"⟩] []).2.2 (by decide)⟩

/-! ### Claim C5 — tiered generation -/

theorem ollama_fails_empty (o : HTTPOutcome) (h : ollamaFails o = true) :
    generate_with_ollama o = "" := by
  cases o with
  | exn => rfl
  | resp status response_field =>
    simp only [ollamaFails, Bool.or_eq_true, bne_iff_ne, ne_eq, beq_iff_eq] at h
    rcases h with h | h
    · simp [generate_with_ollama, h]
    · by_cases hs : status = 200 <;> simp [generate_with_ollama, hs, h]

theorem openai_fails_empty (oa : OpenAIOutcome) (h : openaiFails oa = true) :
    generate_with_openai oa = "" := by
  cases oa with
  | exn => rfl
  | ok content =>
    simp only [openaiFails, beq_iff_eq] at h
    simp [generate_with_openai, h]

/-- Claim C5 counterexample: with the secondary provider configured, both
providers failing yields the empty string, not the non-empty extractive
fallback — a tier-2 failure does not fall through to tier 3. -/
theorem C5_counterexample :
    generate_answer .exn true .exn [sample09] = ""
    ∧ generate_basic_response [sample09] ≠ ""
    ∧ generate_answer .exn true .exn [sample09] ≠ generate_basic_response [sample09] := by
  refine ⟨rfl, by decide, by decide⟩

/-- Claim C5 amended: generation is total and tier-1 failures fall
through, but the tier-2 result is returned as-is: when the secondary
provider is configured its failures yield an empty-string answer instead
of reaching the extractive fallback, which is used only when tier 1 fails
with no secondary provider configured. -/
theorem C5_tier_fallthrough (o : HTTPOutcome) (oa : OpenAIOutcome)
    (chunks : List RetrievedChunk) (h : ollamaFails o = true) :
    generate_answer o false oa chunks = generate_basic_response chunks
    ∧ generate_answer o true oa chunks = generate_with_openai oa
    ∧ (openaiFails oa = true → generate_answer o true oa chunks = "") := by
  have he := ollama_fails_empty o h
  refine ⟨by simp [generate_answer, he], by simp [generate_answer, he], ?_⟩
  intro h2
  rw [show generate_answer o true oa chunks = generate_with_openai oa from
    by simp [generate_answer, he]]
  exact openai_fails_empty oa h2

/-- Claim C5 witness: both providers raising, on a non-empty unit list. -/
theorem C5_tier_fallthrough_witness :
    ollamaFails .exn = true
    ∧ (generate_answer .exn false .exn [sample09] = generate_basic_response [sample09]
      ∧ generate_answer .exn true .exn [sample09] = generate_with_openai .exn
      ∧ (openaiFails .exn = true → generate_answer .exn true .exn [sample09] = "")) :=
  ⟨rfl, C5_tier_fallthrough .exn .exn [sample09] rfl⟩

/-! ### Claim C8 — retrieval ordering -/

/-- Claim C8: the retriever returns at most `top_k` units, sorted by
non-increasing similarity, and in exactly the order delivered by the
vector index (same identifiers position by position — no re-sort). -/
theorem C8_retrieval_ordering (dist : List ℚ → List ℚ → ℚ) (db : List IndexRow)
    (query_embedding : List ℚ) (year : Int) (top_k : Nat) :
    (retrieve_chunks dist db query_embedding year top_k).length ≤ top_k
    ∧ List.Sorted (fun a b => b.similarity_score ≤ a.similarity_score)
        (retrieve_chunks dist db query_embedding year top_k)
    ∧ (retrieve_chunks dist db query_embedding year top_k).map (·.chunk_id)
        = (vectorSearch dist db query_embedding year top_k).map (·.id) := by
  haveI hT : IsTotal IndexRow (fun a b =>
      dist a.embedding query_embedding ≤ dist b.embedding query_embedding) :=
    ⟨fun a b => le_total _ _⟩
  haveI hR : IsTrans IndexRow (fun a b =>
      dist a.embedding query_embedding ≤ dist b.embedding query_embedding) :=
    ⟨fun a b c hab hbc => le_trans hab hbc⟩
  refine ⟨?_, ?_, ?_⟩
  · rw [retrieve_chunks, List.length_map]
    exact List.length_take_le _ _
  · have hs : List.Sorted (fun a b : IndexRow =>
        dist a.embedding query_embedding ≤ dist b.embedding query_embedding)
        (vectorSearch dist db query_embedding year top_k) :=
      (List.sorted_insertionSort _ _).sublist (List.take_sublist _ _)
    rw [retrieve_chunks]
    rw [List.Sorted]
    rw [List.pairwise_map]
    exact hs.imp fun hab => sub_le_sub_left hab 1
  · rw [retrieve_chunks, List.map_map]
    rfl

/-! ### Claim C10 — permutation invariance of confidence -/

/-- Claim C10: for every non-empty list of retrieved units the confidence
depends only on the maximal similarity and the unit count, so it is
invariant under any permutation of the list. -/
theorem C10_confidence_perm_invariant (l₁ l₂ : List RetrievedChunk)
    (hne : l₁ ≠ []) (h : l₁.Perm l₂) :
    calculate_confidence l₁ = calculate_confidence l₂ := by
  cases l₁ with
  | nil => exact absurd rfl hne
  | cons c cs =>
    cases l₂ with
    | nil => exact absurd h.eq_nil (by simp)
    | cons d ds =>
      have hmax := pyListMax_perm (h.map (·.similarity_score))
      have hlen := h.length_eq
      unfold calculate_confidence
      simp only [List.isEmpty_cons, Bool.false_eq_true, if_false]
      rw [hmax, hlen]

/-- Claim C10 witness: swapping the two units of the spec §8 scenario
leaves the confidence unchanged. -/
theorem C10_confidence_perm_invariant_witness :
    ([sample09, sample06] : List RetrievedChunk) ≠ []
    ∧ ([sample09, sample06] : List RetrievedChunk).Perm [sample06, sample09]
    ∧ calculate_confidence [sample09, sample06] = calculate_confidence [sample06, sample09] :=
  ⟨List.cons_ne_nil _ _, List.Perm.swap sample06 sample09 [],
    C10_confidence_perm_invariant _ _ (List.cons_ne_nil _ _)
      (List.Perm.swap sample06 sample09 [])⟩

/-! ### Claim C6 — extractive fallback -/

theorem find?_congr_pred {α : Type} (p q : α → Bool) (h : ∀ x, p x = q x) :
    ∀ l : List α, l.find? p = l.find? q := by
  intro l
  induction l with
  | nil => rfl
  | cons c cs ih =>
    cases hq : q c with
    | true => rw [List.find?_cons_of_pos _ (by rw [h c, hq]), List.find?_cons_of_pos _ hq]
    | false =>
      rw [List.find?_cons_of_neg _ (by rw [h c, hq]; simp), List.find?_cons_of_neg _ (by rw [hq]; simp)]
      exact ih

theorem pyMaxBySim_first_max :
    ∀ (rest : List RetrievedChunk) (b : RetrievedChunk),
      specFirstMax (b :: rest) = some (pyMaxBySim b rest) := by
  intro rest
  induction rest with
  | nil =>
    intro b
    simp [specFirstMax, pyMaxBySim]
  | cons c cs ih =>
    intro b
    by_cases hbc : b.similarity_score < c.similarity_score
    · rw [show pyMaxBySim b (c :: cs) = pyMaxBySim c cs from by simp [pyMaxBySim, hbc]]
      rw [← ih c]
      simp only [specFirstMax]
      have hpb : ((b :: c :: cs).all fun d =>
          decide (d.similarity_score ≤ b.similarity_score)) = false := by
        simp only [List.all_cons, Bool.and_eq_false_iff]
        exact Or.inr (Or.inl (by simp [not_le.mpr hbc]))
      rw [List.find?_cons_of_neg _ (by rw [hpb]; simp)]
      apply find?_congr_pred
      intro x
      simp only [List.all_cons]
      cases hcx : decide (c.similarity_score ≤ x.similarity_score) with
      | false => simp [hcx]
      | true =>
        have hbx : decide (b.similarity_score ≤ x.similarity_score) = true :=
          decide_eq_true (le_trans (le_of_lt hbc) (of_decide_eq_true hcx))
        simp [hbx, hcx]
    · have hcb : c.similarity_score ≤ b.similarity_score := not_lt.mp hbc
      rw [show pyMaxBySim b (c :: cs) = pyMaxBySim b cs from by simp [pyMaxBySim, hbc]]
      rw [← ih b]
      simp only [specFirstMax]
      have hpt : ∀ x : RetrievedChunk,
          ((b :: c :: cs).all fun d => decide (d.similarity_score ≤ x.similarity_score))
            = ((b :: cs).all fun d => decide (d.similarity_score ≤ x.similarity_score)) := by
        intro x
        simp only [List.all_cons]
        cases hbx : decide (b.similarity_score ≤ x.similarity_score) with
        | false => simp [hbx]
        | true =>
          have hcx : decide (c.similarity_score ≤ x.similarity_score) = true :=
            decide_eq_true (le_trans hcb (of_decide_eq_true hbx))
          simp [hbx, hcx]
      cases hPb : ((b :: c :: cs).all fun d =>
          decide (d.similarity_score ≤ b.similarity_score)) with
      | true =>
        have h1 : List.find? (fun x => (b :: c :: cs).all fun d =>
            decide (d.similarity_score ≤ x.similarity_score)) (b :: c :: cs) = some b :=
          List.find?_cons_of_pos _ (by simpa using hPb)
        have h2 : List.find? (fun x => (b :: cs).all fun d =>
            decide (d.similarity_score ≤ x.similarity_score)) (b :: cs) = some b :=
          List.find?_cons_of_pos _ (by simpa using (hpt b).symm.trans hPb)
        rw [h1, h2]
      | false =>
        have hPc : ((b :: c :: cs).all fun d =>
            decide (d.similarity_score ≤ c.similarity_score)) = false := by
          rcases lt_or_eq_of_le hcb with hlt | heq
          · simp only [List.all_cons, Bool.and_eq_false_iff]
            exact Or.inl (by simp [not_le.mpr hlt])
          · rw [heq]
            exact hPb
        have h1 : List.find? (fun x => (b :: c :: cs).all fun d =>
            decide (d.similarity_score ≤ x.similarity_score)) (b :: c :: cs)
            = List.find? (fun x => (b :: c :: cs).all fun d =>
                decide (d.similarity_score ≤ x.similarity_score)) (c :: cs) :=
          List.find?_cons_of_neg _ (by simp [hPb])
        have h1c : List.find? (fun x => (b :: c :: cs).all fun d =>
            decide (d.similarity_score ≤ x.similarity_score)) (c :: cs)
            = List.find? (fun x => (b :: c :: cs).all fun d =>
                decide (d.similarity_score ≤ x.similarity_score)) cs :=
          List.find?_cons_of_neg _ (by simp [hPc])
        have h2 : List.find? (fun x => (b :: cs).all fun d =>
            decide (d.similarity_score ≤ x.similarity_score)) (b :: cs)
            = List.find? (fun x => (b :: cs).all fun d =>
                decide (d.similarity_score ≤ x.similarity_score)) cs :=
          List.find?_cons_of_neg _ (by simp [(hpt b).symm.trans hPb])
        rw [h1, h1c, h2]
        exact find?_congr_pred _ _ hpt cs

/-- Claim C6 counterexample: the fallback answer is not the selected
300-character prefix of the selected unit followed by the ellipsis
marker — it carries
the fixed preamble `"Based on the available information: "` in front. -/
theorem C6_counterexample :
    generate_basic_response [sample09] = "Based on the available information: t..."
    ∧ generate_basic_response [sample09] ≠ pyTake sample09.chunk_text 300 ++ "..." := by
  refine ⟨by decide, by decide⟩

/-- Claim C6 amended: the fallback is deterministic and provider-free;
the empty list gives the fixed "no relevant information" string, and a
non-empty list selects the first unit attaining the maximal similarity
(Python `max` keeps the first on ties) and returns the fixed preamble
followed by the first 300 characters of its text and an ellipsis
marker. -/
theorem C6_extractive_fallback (chunks : List RetrievedChunk) (b : RetrievedChunk)
    (rest : List RetrievedChunk) (h : chunks = b :: rest) :
    generate_basic_response []
        = "I couldn\u0027t find relevant information to answer your question."
    ∧ specFirstMax chunks = some (pyMaxBySim b rest)
    ∧ generate_basic_response chunks
        = "Based on the available information: "
          ++ pyTake (pyMaxBySim b rest).chunk_text 300 ++ "..." := by
  subst h
  exact ⟨rfl, pyMaxBySim_first_max rest b, rfl⟩

/-- Claim C6 witness: on the two-unit scenario list the selected unit is
the spec-level first maximum and the answer is the preamble plus prefix
plus ellipsis. -/
theorem C6_extractive_fallback_witness :
    ([sample09, sample06] : List RetrievedChunk) = sample09 :: [sample06]
    ∧ (generate_basic_response []
          = "I couldn\u0027t find relevant information to answer your question."
      ∧ specFirstMax [sample09, sample06] = some (pyMaxBySim sample09 [sample06])
      ∧ generate_basic_response [sample09, sample06]
          = "Based on the available information: "
            ++ pyTake (pyMaxBySim sample09 [sample06]).chunk_text 300 ++ "...") :=
  ⟨rfl, C6_extractive_fallback [sample09, sample06] sample09 [sample06] rfl⟩

/-! ### Claim C7 — zero retrieval results -/

/-- Claim C7: when retrieval returns zero results, `process_query` returns
the fixed "no relevant information" response with empty sources and
confidence exactly `0`, as a normal (`Except.ok`) outcome, not an error. -/
theorem C7_zero_results (dist : List ℚ → List ℚ → ℚ) (query_embedding : List ℚ)
    (db : List IndexRow) (year : Int) (top_k : Nat) (ollamaOut : HTTPOutcome)
    (openaiConfigured : Bool) (openaiOut : OpenAIOutcome)
    (h : retrieve_chunks dist db query_embedding year top_k = []) :
    process_query dist (some query_embedding) db year top_k ollamaOut
        openaiConfigured openaiOut
      = .ok { answer := "No relevant information found for your query."
              sources := []
              confidence := 0 } := by
  simp [process_query, h]

/-- Claim C7 witness: an empty index yields zero results and the fixed
zero-confidence response. -/
theorem C7_zero_results_witness :
    retrieve_chunks zeroDist [] [1] 2023 5 = []
    ∧ process_query zeroDist (some [1]) [] 2023 5 .exn false .exn
      = .ok { answer := "No relevant information found for your query."
              sources := []
              confidence := 0 } :=
  ⟨rfl, C7_zero_results zeroDist [1] [] 2023 5 .exn false .exn rfl⟩

end StockRag
